import Mathlib

/-!
Shallow embedding of the leave-request approval workflow and conflict/risk
engine of the employee resource-management backend.

The database is modelled as explicit lists of rows; each Supabase query in
the source becomes a `List.filter`/`List.find?` over those rows, and each
endpoint becomes a pure function returning `Except Err` for the
`HTTPException`s it can raise.  Functions keep the names of the Python
functions they embed (`calculate_workload`, `has_blocking_incident`,
`find_valid_alternate`, `calculate_risk_level`, `analyze_leave_conflict`,
`hr_approve_leave`, `tl_make_decision`, `pm_make_decision`, `delete_leave`,
`approve_leave`).
-/

namespace LeaveCore

/-- A row of the `tasks` table (fields read by the engine).  `priority` is an
optional field (`t.get("priority", "medium")` in the source), so it is an
`Option String`; `required_skills` is the weighted skill mapping. -/
structure Task where
  id : String
  assignee_id : String
  priority : Option String
  status : String
  required_skills : List (String × Nat)
  deriving Repr, DecidableEq

/-- A row of the `incidents` table.  `leave_conflicts.py` filters the table on
an `owner_id` column while `leave_manager.py` filters on `assigned_to_id`;
both columns are carried here so each query can be embedded as written. -/
structure Incident where
  id : String
  owner_id : String
  assigned_to_id : String
  severity : String
  status : String
  deriving Repr, DecidableEq

/-- A row of the `users` table as read by the alternate search:
`user.get("skills", [])` is a skill list when present and list-shaped,
anything else is treated as the empty dict (`none` here). -/
structure User where
  id : String
  name : String
  skills : Option (List String)
  status : String
  deriving Repr, DecidableEq

/-- A row of the `leaves` table.  Dates are modelled as
`Option (Option Int)`: the outer layer is field presence (missing dates are a
400 in `analyze_leave_conflict`), the inner layer is parsability
(`datetime.fromisoformat` failing falls back to `leave_days = 1`), with a
parsed date reduced to its day ordinal.  Timestamps written by the workflow
are modelled as set/unset flags. -/
structure Leave where
  id : String
  employee_id : String
  status : String
  start_date : Option (Option Int)
  end_date : Option (Option Int)
  hr_reviewed_by : Option String
  hr_reviewed_at_set : Bool
  decided_by_id : Option String
  decision_notes : Option String
  approved_at_set : Bool
  deriving Repr, DecidableEq

/-- The database snapshot an endpoint call sees.  `project_members` holds
(project_id, user_id) rows; the alternate search never reads it, which is
what claim C6 is about. -/
structure DB where
  users : List User
  tasks : List Task
  incidents : List Incident
  leaves : List Leave
  project_members : List (String × String)
  deriving Repr, DecidableEq

/-- `calculate_skill_match` of `leave_conflicts.py`: skills with candidate
score at least 60 count as matched; the result is the matched share of the
total weight times 100, or 100 when nothing is required, or 0 when the
required weights sum to 0.  `employee_skills` is dict lookup with default 0. -/
def calculate_skill_match (required_skills : List (String × Nat))
    (employee_skills : String → Nat) : Rat :=
  if required_skills.isEmpty then 100
  else
    let total_weight : Nat := (required_skills.map (fun p => p.2)).sum
    let matched_weight : Nat :=
      ((required_skills.filter (fun p => decide (60 ≤ employee_skills p.1))).map
        (fun p => p.2)).sum
    if 0 < total_weight then ((matched_weight : Rat) / (total_weight : Rat)) * 100 else 0

/-- The weight table of `calculate_workload`. -/
def weightMap (p : String) : Option Nat :=
  if p = "critical" then some 40
  else if p = "high" then some 30
  else if p = "medium" then some 20
  else if p = "low" then some 10
  else none

/-- `weight_map.get(t.get("priority", "medium"), 20)`: a missing priority
reads as "medium", an unrecognized one falls back to weight 20. -/
def taskWeight (t : Task) : Nat :=
  (weightMap (t.priority.getD "medium")).getD 20

/-- The rows returned by the workload query: tasks of the employee whose
status is not "completed". -/
def activeTasksOf (employee_id : String) (db : DB) : List Task :=
  db.tasks.filter (fun t => t.assignee_id == employee_id && t.status != "completed")

/-- `calculate_workload`: sum of the task weights, capped at 100. -/
def calculate_workload (employee_id : String) (db : DB) : Nat :=
  min (((activeTasksOf employee_id db).map taskWeight).sum) 100

/-- The rows returned by the `has_blocking_incident` query: incidents with
`owner_id` equal to the employee, status not "resolved", severity in
{high, critical}. -/
def ownerBlockingIncidentsOf (employee_id : String) (db : DB) : List Incident :=
  db.incidents.filter (fun i =>
    i.owner_id == employee_id && i.status != "resolved" &&
      (i.severity == "high" || i.severity == "critical"))

/-- `has_blocking_incident` of `leave_conflicts.py`. -/
def has_blocking_incident (employee_id : String) (db : DB) : Bool :=
  decide (0 < (ownerBlockingIncidentsOf employee_id db).length)

/-- The candidate record returned by `find_valid_alternate`. -/
structure AltCandidate where
  id : String
  name : String
  skill_match : Rat
  availability : Nat
  deriving Repr, DecidableEq

/-- The skill dict built for a candidate: a list-shaped `skills` field turns
into score 80 per listed skill, anything else into the empty dict. -/
def skillScore (u : User) : String → Nat := fun s =>
  match u.skills with
  | some l => if l.contains s then 80 else 0
  | none => 0

/-- The loop body of `find_valid_alternate`, by recursion on the fetched
pool: skip the excluded employee, return the first candidate with
skill match at least 80, availability (100 minus workload) at least 30 and
no blocking incident. -/
def findAltLoop (employee_id : String) (critical_task : Task) (db : DB) :
    List User → Option AltCandidate
  | [] => none
  | u :: rest =>
    if u.id == employee_id then findAltLoop employee_id critical_task db rest
    else
      let skill_match := calculate_skill_match critical_task.required_skills (skillScore u)
      let workload := calculate_workload u.id db
      let availability : Nat := 100 - workload
      let has_incident := has_blocking_incident u.id db
      if 80 ≤ skill_match ∧ 30 ≤ availability ∧ has_incident = false then
        some { id := u.id, name := u.name, skill_match := skill_match,
               availability := availability }
      else findAltLoop employee_id critical_task db rest

/-- `find_valid_alternate` of `leave_conflicts.py`: the pool fetched is every
user with status "active"; no other filter is applied to the pool. -/
def find_valid_alternate (employee_id : String) (critical_task : Task) (db : DB) :
    Option AltCandidate :=
  findAltLoop employee_id critical_task db
    (db.users.filter (fun u => u.status == "active"))

/-- The critical-task query shared by `calculate_risk_level`
(`leave_manager.py`) and `analyze_leave_conflict` (`leave_conflicts.py`):
tasks of the employee with priority exactly "critical" and status not
"completed". -/
def criticalTasksOf (employee_id : String) (db : DB) : List Task :=
  db.tasks.filter (fun t =>
    t.assignee_id == employee_id && t.priority == some "critical" &&
      t.status != "completed")

/-- The incident query of `calculate_risk_level`: it filters on the
`assigned_to_id` column (unlike `has_blocking_incident`, which filters on
`owner_id`), status not "resolved", severity in {high, critical}. -/
def assignedBlockingIncidentsOf (employee_id : String) (db : DB) : List Incident :=
  db.incidents.filter (fun i =>
    i.assigned_to_id == employee_id && i.status != "resolved" &&
      (i.severity == "high" || i.severity == "critical"))

/-- The risk-factor records appended by `calculate_risk_level`. -/
inductive RiskFactor where
  | extended_absence (days : Int)
  | critical_tasks (count : Nat) (ids : List String)
  | blocking_incidents (count : Nat) (ids : List String)
  deriving Repr, DecidableEq

/-- `calculate_risk_level` of `leave_manager.py`: the duration factor fires
for more than 3 days, the critical-task and blocking-incident factors for a
nonempty query result; the level is "high" with any incident, else "medium"
with a critical task or long duration, else "low". -/
def calculate_risk_level (leave_days : Int) (employee_id : String) (db : DB) :
    String × List RiskFactor :=
  let durationFactors : List RiskFactor :=
    if 3 < leave_days then [.extended_absence leave_days] else []
  let ct := criticalTasksOf employee_id db
  let criticalFactors : List RiskFactor :=
    if 0 < ct.length then [.critical_tasks ct.length (ct.map Task.id)] else []
  let incs := assignedBlockingIncidentsOf employee_id db
  let incidentFactors : List RiskFactor :=
    if 0 < incs.length then [.blocking_incidents incs.length (incs.map Incident.id)] else []
  let risk_level :=
    if 0 < incs.length then "high"
    else if 0 < ct.length ∨ 3 < leave_days then "medium"
    else "low"
  (risk_level, durationFactors ++ criticalFactors ++ incidentFactors)

/-- Whether a factor list carries the blocking-incidents factor. -/
def hasIncidentFactor (fs : List RiskFactor) : Bool :=
  fs.any fun f =>
    match f with
    | .blocking_incidents _ _ => true
    | _ => false

/-- The `current_user` record of an endpoint call. -/
structure Actor where
  id : String
  role : String
  hierarchy_level : String
  deriving Repr, DecidableEq

/-- `is_admin` of `rbac.py`: role "admin", or hierarchy level L1 or L2. -/
def is_admin (u : Actor) : Bool :=
  u.role == "admin" || (u.hierarchy_level == "L1" || u.hierarchy_level == "L2")

/-- The error taxonomy of the endpoints: 404, 400 on a bad state, 403, and
400 on a malformed action or parameter. -/
inductive Err where
  | NotFound
  | InvalidState
  | Forbidden
  | InvalidArgument
  deriving Repr, DecidableEq

/-- `db.table("leaves").update(..).eq("id", leave_id)`: apply the row update
to every row whose id matches. -/
def updateLeaves (f : Leave → Leave) (leave_id : String) (db : List Leave) :
    List Leave :=
  db.map fun l => if l.id == leave_id then f l else l

/-- The rows a leaves update returns: the updated rows matching the id. -/
def matchingRows (db : List Leave) (leave_id : String) : List Leave :=
  db.filter fun l => l.id == leave_id

/-- `hr_approve_leave` of `leave_manager.py`: only the actor's role is
checked (HR or admin); the status "forwarded_to_team_lead" is then written
unconditionally to whatever rows match the id, and the response reports the
first updated row or nothing.  No status precondition and no 404. -/
def hr_approve_leave (leave_id : String) (actor : Actor) (db : List Leave) :
    Except Err (List Leave × Option Leave) :=
  if !is_admin actor && actor.role != "hr" then .error .Forbidden
  else
    let db2 := updateLeaves
      (fun l => { l with
                  status := "forwarded_to_team_lead"
                  hr_reviewed_by := some actor.id
                  hr_reviewed_at_set := true })
      leave_id db
    .ok (db2, (matchingRows db2 leave_id).head?)

/-- `tl_make_decision` of `leave_manager.py`: role check (TL or admin), then
"approve" writes status "approved" and "forward_to_pm" writes
"pending_l7_decision", each to whatever rows match the id; any other action
is a 400.  No status precondition and no 404. -/
def tl_make_decision (leave_id action : String) (notes : Option String)
    (actor : Actor) (db : List Leave) : Except Err (List Leave × Option Leave) :=
  if !is_admin actor && actor.role != "technical_lead" then .error .Forbidden
  else if action == "approve" then
    let db2 := updateLeaves
      (fun l => { l with
                  status := "approved"
                  decided_by_id := some actor.id
                  decision_notes := notes
                  approved_at_set := true })
      leave_id db
    .ok (db2, (matchingRows db2 leave_id).head?)
  else if action == "forward_to_pm" then
    let db2 := updateLeaves
      (fun l => { l with
                  status := "pending_l7_decision"
                  decision_notes := notes })
      leave_id db
    .ok (db2, (matchingRows db2 leave_id).head?)
  else .error .InvalidArgument

/-- `pm_make_decision` of `leave_manager.py`: role check (PM or admin), then
"approve" writes "approved" (with timestamp) and "reject" writes "rejected",
each to whatever rows match the id; any other action is a 400.  No status
precondition and no 404. -/
def pm_make_decision (leave_id action : String) (notes : Option String)
    (actor : Actor) (db : List Leave) : Except Err (List Leave × Option Leave) :=
  if !is_admin actor && actor.role != "project_manager" then .error .Forbidden
  else if action == "approve" then
    let db2 := updateLeaves
      (fun l => { l with
                  status := "approved"
                  decided_by_id := some actor.id
                  decision_notes := notes
                  approved_at_set := true })
      leave_id db
    .ok (db2, (matchingRows db2 leave_id).head?)
  else if action == "reject" then
    let db2 := updateLeaves
      (fun l => { l with
                  status := "rejected"
                  decided_by_id := some actor.id
                  decision_notes := notes })
      leave_id db
    .ok (db2, (matchingRows db2 leave_id).head?)
  else .error .InvalidArgument

/-- `delete_leave` of `leaves.py` (cancel): 404 when the id is unknown; for a
non-admin actor, 403 unless the request is the actor's own, then a 400 unless
the status is "pending_hr_review" or "forwarded_to_team_lead"; an admin skips
both checks.  Every error is raised before the write, so an error leaves the
table unchanged. -/
def delete_leave (leave_id : String) (actor : Actor) (db : List Leave) :
    Except Err (List Leave × Option Leave) :=
  match db.find? (fun l => l.id == leave_id) with
  | none => .error .NotFound
  | some leave =>
    if !is_admin actor && leave.employee_id != actor.id then .error .Forbidden
    else if !is_admin actor &&
        !(leave.status == "pending_hr_review" || leave.status == "forwarded_to_team_lead") then
      .error .InvalidState
    else
      .ok (updateLeaves (fun l => { l with status := "cancelled" }) leave_id db, none)

/-- `approve_leave` of `leaves.py`: role check (HR, TL, PM or admin), then
status "approved" is written to whatever rows match the id irrespective of
the current status; a 404 is reported only afterwards, when no row matched
(in which case the write touched nothing). -/
def approve_leave (leave_id : String) (notes : Option String) (actor : Actor)
    (db : List Leave) : Except Err (List Leave × Leave) :=
  if !is_admin actor &&
      !(actor.role == "hr" || actor.role == "technical_lead" ||
        actor.role == "project_manager") then .error .Forbidden
  else
    match (matchingRows (updateLeaves
      (fun l => { l with
                  status := "approved"
                  approved_at_set := true
                  decided_by_id := some actor.id
                  decision_notes := notes })
      leave_id db) leave_id).head? with
    | none => .error .NotFound
    | some l =>
      .ok (updateLeaves
        (fun l => { l with
                    status := "approved"
                    approved_at_set := true
                    decided_by_id := some actor.id
                    decision_notes := notes })
        leave_id db, l)

/-- `reject_leave` of `leaves.py`: as `approve_leave` but writing status
"rejected" and no timestamp. -/
def reject_leave (leave_id : String) (notes : Option String) (actor : Actor)
    (db : List Leave) : Except Err (List Leave × Leave) :=
  if !is_admin actor &&
      !(actor.role == "hr" || actor.role == "technical_lead" ||
        actor.role == "project_manager") then .error .Forbidden
  else
    match (matchingRows (updateLeaves
      (fun l => { l with
                  status := "rejected"
                  decided_by_id := some actor.id
                  decision_notes := notes })
      leave_id db) leave_id).head? with
    | none => .error .NotFound
    | some l =>
      .ok (updateLeaves
        (fun l => { l with
                    status := "rejected"
                    decided_by_id := some actor.id
                    decision_notes := notes })
        leave_id db, l)

/-- The pending-tasks query of `analyze_leave_conflict`: tasks of the
employee with status "open" or "blocked". -/
def pendingTasksOf (employee_id : String) (db : DB) : List Task :=
  db.tasks.filter (fun t =>
    t.assignee_id == employee_id && (t.status == "open" || t.status == "blocked"))

/-- `(end - start).days + 1` with the source's fallback: any unparsable date
makes the computation fall back to 1 day. -/
def computeLeaveDays (s e : Option Int) : Int :=
  match s, e with
  | some a, some b => (b - a) + 1
  | _, _ => 1

/-- The `flags` object of the conflict analysis response. -/
structure ConflictFlags where
  resource_hold : Bool
  pending_tasks : Bool
  incident_hard_block : Bool
  has_valid_alternate : Bool
  deriving Repr, DecidableEq

/-- The parts of the conflict analysis response the claims are about. -/
structure AnalyzeResult where
  leave_id : String
  employee_id : String
  leave_days : Int
  hr_approved : Bool
  flags : ConflictFlags
  valid_alternate : Option AltCandidate
  final_decision : String
  can_l7_approve : Bool
  deriving Repr, DecidableEq

/-- `analyze_leave_conflict` of `leave_conflicts.py`: 404 when the leave or
its employee is missing, 400 on a missing employee reference or missing
dates; `hr_approved` is the source's hard-coded `True` (balance-check stub),
kept together with its dead `REJECTED_BY_HR` early return; the alternate
search runs only when a critical task exists, on the first critical task
returned; the decision is "PENDING_L6" on an incident hard block or a
critical task with no valid alternate, else "PENDING_L6" on a critical or
pending task, else "APPROVED_BY_L7". -/
def analyze_leave_conflict (leave_id : String) (db : DB) : Except Err AnalyzeResult :=
  match db.leaves.find? (fun l => l.id == leave_id) with
  | none => .error .NotFound
  | some leave =>
    if leave.employee_id == "" then .error .InvalidArgument
    else
      match leave.start_date, leave.end_date with
      | some sd, some ed =>
        let leave_days := computeLeaveDays sd ed
        match db.users.find? (fun u => u.id == leave.employee_id) with
        | none => .error .NotFound
        | some _emp =>
          let hr_approved := true
          if !hr_approved then
            .ok { leave_id := leave_id, employee_id := leave.employee_id,
                  leave_days := leave_days, hr_approved := false,
                  flags := ⟨false, false, false, false⟩, valid_alternate := none,
                  final_decision := "REJECTED_BY_HR", can_l7_approve := false }
          else
            let critical_tasks := criticalTasksOf leave.employee_id db
            let has_critical_task := decide (0 < critical_tasks.length)
            let has_pending := decide (0 < (pendingTasksOf leave.employee_id db).length)
            let has_incident := has_blocking_incident leave.employee_id db
            let valid_alternate :=
              if has_critical_task then
                match critical_tasks with
                | t :: _ => find_valid_alternate leave.employee_id t db
                | [] => none
              else none
            let flags : ConflictFlags :=
              { resource_hold := has_critical_task, pending_tasks := has_pending,
                incident_hard_block := has_incident,
                has_valid_alternate :=
                  if has_critical_task then valid_alternate.isSome else true }
            let decision : String × Bool :=
              if has_incident || (has_critical_task && valid_alternate.isNone) then
                ("PENDING_L6", false)
              else if has_critical_task || has_pending then ("PENDING_L6", false)
              else ("APPROVED_BY_L7", true)
            .ok { leave_id := leave_id, employee_id := leave.employee_id,
                  leave_days := leave_days, hr_approved := hr_approved,
                  flags := flags, valid_alternate := valid_alternate,
                  final_decision := decision.1, can_l7_approve := decision.2 }
      | _, _ => .error .InvalidArgument

/-! ### Spec-side predicates and helper definitions used by the theorems -/

/-- The qualification test of the alternate-search loop, as a predicate on a
pool member: not the excluded employee, skill match at least 80, availability
at least 30, no blocking incident. -/
def altQualifies (employee_id : String) (critical_task : Task) (db : DB)
    (u : User) : Bool :=
  u.id != employee_id &&
    decide (80 ≤ calculate_skill_match critical_task.required_skills (skillScore u)) &&
    decide (30 ≤ 100 - calculate_workload u.id db) &&
    !has_blocking_incident u.id db

/-- The candidate record the loop builds for a pool member. -/
def mkAltCandidate (critical_task : Task) (db : DB) (u : User) : AltCandidate :=
  { id := u.id, name := u.name,
    skill_match := calculate_skill_match critical_task.required_skills (skillScore u),
    availability := 100 - calculate_workload u.id db }

/-- Whether two user ids are members of one common project, read from the
(project_id, user_id) rows. -/
def inSameProject (db : DB) (a b : String) : Bool :=
  db.project_members.any fun p =>
    p.2 == a && db.project_members.any fun q => q.1 == p.1 && q.2 == b

/-- The spec's reading of IncidentGuard's incident set: an unresolved
high- or critical-severity incident owned by the employee. -/
def ExistsOwnedBlocking (e : String) (db : DB) : Prop :=
  ∃ i ∈ db.incidents, i.owner_id = e ∧ i.status ≠ "resolved" ∧
    (i.severity = "high" ∨ i.severity = "critical")

/-- The incident set the risk classifier actually queries: an unresolved
high- or critical-severity incident assigned to the employee. -/
def ExistsAssignedBlocking (e : String) (db : DB) : Prop :=
  ∃ i ∈ db.incidents, i.assigned_to_id = e ∧ i.status ≠ "resolved" ∧
    (i.severity = "high" ∨ i.severity = "critical")

/-- The spec's reading of the critical-task factor: a non-completed
critical-priority task assigned to the employee. -/
def ExistsCriticalTask (e : String) (db : DB) : Prop :=
  ∃ t ∈ db.tasks, t.assignee_id = e ∧ t.priority = some "critical" ∧
    t.status ≠ "completed"

/-- The property claim C3 states about a successful conflict analysis: the
`REJECTED_BY_HR` guard, the decision chain over the computed flags, and the
alternate search attempted exactly on a resource hold with the first critical
task as reference. -/
def conflictClaimProp (db : DB) (r : AnalyzeResult) : Prop :=
  (r.hr_approved = false → r.final_decision = "REJECTED_BY_HR") ∧
  (r.hr_approved = true →
    r.final_decision =
      (if r.flags.incident_hard_block ||
          (r.flags.resource_hold && r.valid_alternate.isNone) then "PENDING_L6"
       else if r.flags.resource_hold || r.flags.pending_tasks then "PENDING_L6"
       else "APPROVED_BY_L7") ∧
    r.can_l7_approve = (r.final_decision == "APPROVED_BY_L7") ∧
    r.flags.resource_hold = decide (0 < (criticalTasksOf r.employee_id db).length) ∧
    r.flags.pending_tasks = decide (0 < (pendingTasksOf r.employee_id db).length) ∧
    r.flags.incident_hard_block = has_blocking_incident r.employee_id db ∧
    r.valid_alternate =
      (match (criticalTasksOf r.employee_id db).head? with
       | some t => find_valid_alternate r.employee_id t db
       | none => none))

/-! ### Concrete inputs for counterexamples and witnesses -/

/-- An empty database snapshot to build concrete inputs from. -/
def emptyDB : DB :=
  { users := [], tasks := [], incidents := [], leaves := [], project_members := [] }

/-- A leave-request row with every workflow field blank, used as a template. -/
def blankLeave : Leave :=
  { id := "L1", employee_id := "E1", status := "pending_hr_review",
    start_date := none, end_date := none, hr_reviewed_by := none,
    hr_reviewed_at_set := false, decided_by_id := none, decision_notes := none,
    approved_at_set := false }

/-- An HR actor. -/
def hrActor : Actor := { id := "H1", role := "hr", hierarchy_level := "L9" }

/-- A technical-lead actor. -/
def tlActor : Actor := { id := "T1", role := "technical_lead", hierarchy_level := "L7" }

/-- An admin actor. -/
def adminActor : Actor := { id := "A1", role := "admin", hierarchy_level := "L1" }

/-- A request already in the terminal state "approved". -/
def leaveApproved : Leave := { blankLeave with status := "approved" }

/-- A request awaiting the project-manager decision. -/
def leaveL7 : Leave := { blankLeave with status := "pending_l7_decision" }

/-- The incident of the C7 counterexample: owned by E1 but assigned to E2. -/
def inc7 : Incident :=
  { id := "I1", owner_id := "E1", assigned_to_id := "E2", severity := "high",
    status := "open" }

/-- The database of the C7 counterexample. -/
def db7 : DB := { emptyDB with incidents := [inc7] }

/-- The excluded employee of the C6 counterexample. -/
def user6a : User := { id := "E1", name := "Alice", skills := some ["python"], status := "active" }

/-- The C6 counterexample's candidate: on employee E1's project. -/
def user6b : User := { id := "E2", name := "Bob", skills := some ["python"], status := "active" }

/-- The held critical task of the C6 counterexample (no required skills
listed, so every candidate's skill match is 100). -/
def task6 : Task :=
  { id := "T1", assignee_id := "E1", priority := some "critical", status := "open",
    required_skills := [] }

/-- The database of the C6 counterexample: E1 and E2 share project P1. -/
def db6 : DB :=
  { emptyDB with
    users := [user6a, user6b]
    tasks := [task6]
    project_members := [("P1", "E1"), ("P1", "E2")] }

/-- A task with an unrecognized priority string, for the C10 witness. -/
def task10 : Task :=
  { id := "T1", assignee_id := "E1", priority := some "urgent", status := "open",
    required_skills := [] }

/-- The leave row of the C3 witness: two parsable dates, one day apart. -/
def leave3 : Leave :=
  { blankLeave with start_date := some (some 10), end_date := some (some 11) }

/-- The employee row of the C3 witness. -/
def user3 : User := { id := "E1", name := "Eve", skills := some [], status := "active" }

/-- The database of the C3 witness: one leave, its employee, nothing else. -/
def db3 : DB := { emptyDB with users := [user3], leaves := [leave3] }

/-- What `analyze_leave_conflict` returns on `db3`. -/
def res3 : AnalyzeResult :=
  { leave_id := "L1", employee_id := "E1", leave_days := 2, hr_approved := true,
    flags := ⟨false, false, false, true⟩, valid_alternate := none,
    final_decision := "APPROVED_BY_L7", can_l7_approve := true }

/-! ### Helper lemmas -/

/-- The IncidentGuard query finds a row exactly when an owned unresolved
high/critical incident exists. -/
theorem owned_pos_iff (e : String) (db : DB) :
    0 < (ownerBlockingIncidentsOf e db).length ↔ ExistsOwnedBlocking e db := by
  simp [ownerBlockingIncidentsOf, ExistsOwnedBlocking, List.length_pos_iff_exists_mem,
    List.mem_filter, and_assoc]

/-- The risk classifier's incident query finds a row exactly when an assigned
unresolved high/critical incident exists. -/
theorem assigned_pos_iff (e : String) (db : DB) :
    0 < (assignedBlockingIncidentsOf e db).length ↔ ExistsAssignedBlocking e db := by
  simp [assignedBlockingIncidentsOf, ExistsAssignedBlocking, List.length_pos_iff_exists_mem,
    List.mem_filter, and_assoc]

/-- The critical-task query finds a row exactly when a non-completed
critical-priority task of the employee exists. -/
theorem critical_pos_iff (e : String) (db : DB) :
    0 < (criticalTasksOf e db).length ↔ ExistsCriticalTask e db := by
  simp [criticalTasksOf, ExistsCriticalTask, List.length_pos_iff_exists_mem,
    List.mem_filter, and_assoc]

/-- The risk factor list carries the blocking-incidents factor exactly when
the classifier's incident query found a row. -/
theorem hasIncidentFactor_risk (d : Int) (e : String) (db : DB) :
    hasIncidentFactor (calculate_risk_level d e db).2 =
      decide (0 < (assignedBlockingIncidentsOf e db).length) := by
  simp only [calculate_risk_level]
  by_cases h1 : 3 < d <;>
    by_cases h2 : 0 < (criticalTasksOf e db).length <;>
      by_cases h3 : 0 < (assignedBlockingIncidentsOf e db).length <;>
        simp [h1, h2, h3, hasIncidentFactor]

/-- The level component of `calculate_risk_level`, by cases on the two query
results and the duration test. -/
theorem risk_level_eq (d : Int) (e : String) (db : DB) :
    (calculate_risk_level d e db).1 =
      (if 0 < (assignedBlockingIncidentsOf e db).length then "high"
       else if 0 < (criticalTasksOf e db).length ∨ 3 < d then "medium"
       else "low") := by
  simp only [calculate_risk_level]

/-! ### Claim theorems -/

/-- C9: the workload score is the sum over the employee's non-completed
tasks of the priority weights, capped at 100; an empty task list yields 0,
the result is at most 100, and adding one task never decreases it. -/
theorem C9_workload_bounds_monotone (e : String) (db : DB) (t : Task) :
    calculate_workload e db = min (((activeTasksOf e db).map taskWeight).sum) 100 ∧
    calculate_workload e { db with tasks := [] } = 0 ∧
    calculate_workload e db ≤ 100 ∧
    calculate_workload e db ≤ calculate_workload e { db with tasks := t :: db.tasks } := by
  refine ⟨rfl, rfl, Nat.min_le_right _ _, ?_⟩
  unfold calculate_workload
  refine min_le_min ?_ le_rfl
  unfold activeTasksOf
  simp only [List.filter_cons]
  split
  · simp
  · exact le_rfl

/-- C10: a non-completed task with a missing or unrecognized priority is
counted with weight 20, the medium-priority weight, and raises the workload
exactly as a medium-priority task would. -/
theorem C10_unrecognized_priority (e : String) (db : DB) (t : Task)
    (h1 : t.assignee_id = e) (h2 : t.status ≠ "completed")
    (h3 : t.priority = none ∨ ∃ s, t.priority = some s ∧
      s ≠ "critical" ∧ s ≠ "high" ∧ s ≠ "medium" ∧ s ≠ "low") :
    taskWeight t = 20 ∧
    calculate_workload e { db with tasks := t :: db.tasks } =
      calculate_workload e
        { db with tasks := { t with priority := some "medium" } :: db.tasks } := by
  have hw : taskWeight t = 20 := by
    rcases h3 with h | ⟨s, hs, hc, hh, hm, hl⟩
    · simp [taskWeight, h, weightMap]
    · simp [taskWeight, hs, weightMap, hc, hh, hm, hl]
  have hw2 : taskWeight { t with priority := some "medium" } = 20 := by
    simp [taskWeight, weightMap]
  refine ⟨hw, ?_⟩
  unfold calculate_workload activeTasksOf
  simp only [List.filter_cons]
  have hpred : (t.assignee_id == e && t.status != "completed") = true := by
    simp [h1, h2]
  rw [hpred]
  simp [hw, hw2]

/-- C10 witness: a weight-20 count for the concrete priority "urgent". -/
theorem C10_witness :
    taskWeight task10 = 20 ∧
    calculate_workload "E1" { emptyDB with tasks := task10 :: emptyDB.tasks } =
      calculate_workload "E1"
        { emptyDB with tasks := { task10 with priority := some "medium" } :: emptyDB.tasks } :=
  C10_unrecognized_priority "E1" emptyDB task10 rfl (by decide)
    (Or.inr ⟨"urgent", rfl, by decide, by decide, by decide, by decide⟩)

/-- C4: the risk level is "high" exactly on an assigned unresolved
high/critical incident, else "medium" exactly on a non-completed critical
task or a duration over 3 days, else "low". -/
theorem C4_risk_level (d : Int) (e : String) (db : DB) :
    ((calculate_risk_level d e db).1 = "high" ↔ ExistsAssignedBlocking e db) ∧
    ((calculate_risk_level d e db).1 = "medium" ↔
      ¬ExistsAssignedBlocking e db ∧ (ExistsCriticalTask e db ∨ 3 < d)) ∧
    ((calculate_risk_level d e db).1 = "low" ↔
      ¬ExistsAssignedBlocking e db ∧ ¬ExistsCriticalTask e db ∧ d ≤ 3) := by
  rw [risk_level_eq, ← assigned_pos_iff, ← critical_pos_iff]
  by_cases h1 : 0 < (assignedBlockingIncidentsOf e db).length <;>
    by_cases h2 : 0 < (criticalTasksOf e db).length <;>
      by_cases h3 : 3 < d
  all_goals (simp [h1, h2, h3, not_lt]; try omega)

/-- C7 counterexample: an unresolved high-severity incident owned by E1 but
assigned to E2 makes IncidentGuard block E1 while the risk classifier sees no
incident factor for E1 and reports low risk. -/
theorem C7_counterexample :
    inc7.owner_id = "E1" ∧ inc7.severity = "high" ∧ inc7.status ≠ "resolved" ∧
    has_blocking_incident "E1" db7 = true ∧
    hasIncidentFactor (calculate_risk_level 2 "E1" db7).2 = false ∧
    (calculate_risk_level 2 "E1" db7).1 = "low" := by decide

/-- C7 amended: IncidentGuard matches incidents by owner, the risk
classifier's factor matches them by assignee; the two agree whenever owner
and assignee coincide on every incident. -/
theorem C7_owner_vs_assignee (e : String) (d : Int) (db : DB) :
    (has_blocking_incident e db = true ↔ ExistsOwnedBlocking e db) ∧
    (hasIncidentFactor (calculate_risk_level d e db).2 = true ↔
      ExistsAssignedBlocking e db) ∧
    ((∀ i ∈ db.incidents, i.owner_id = i.assigned_to_id) →
      has_blocking_incident e db = hasIncidentFactor (calculate_risk_level d e db).2) := by
  refine ⟨?_, ?_, ?_⟩
  · simpa [has_blocking_incident] using owned_pos_iff e db
  · rw [hasIncidentFactor_risk]
    simpa using assigned_pos_iff e db
  · intro h
    have hfilter : ownerBlockingIncidentsOf e db = assignedBlockingIncidentsOf e db := by
      unfold ownerBlockingIncidentsOf assignedBlockingIncidentsOf
      apply List.filter_congr
      intro i hi
      rw [h i hi]
    rw [hasIncidentFactor_risk]
    unfold has_blocking_incident
    rw [hfilter]

/-- Unfolded success test of the alternate-search loop. -/
theorem altQualifies_iff (e : String) (task : Task) (db : DB) (u : User) :
    altQualifies e task db u = true ↔
      u.id ≠ e ∧ (80 ≤ calculate_skill_match task.required_skills (skillScore u) ∧
        30 ≤ 100 - calculate_workload u.id db ∧
        has_blocking_incident u.id db = false) := by
  simp [altQualifies, and_assoc]

/-- The alternate-search loop never reads the project-members table. -/
theorem findAltLoop_project_members (e : String) (task : Task) (db : DB)
    (pm : List (String × String)) (l : List User) :
    findAltLoop e task { db with project_members := pm } l =
      findAltLoop e task db l := by
  induction l with
  | nil => rfl
  | cons u rest ih =>
    simp only [findAltLoop]
    rw [ih]
    rfl

/-- The alternate-search loop returns the first pool member passing the
qualification test, packaged as a candidate record. -/
theorem findAltLoop_eq_find (e : String) (task : Task) (db : DB) (l : List User) :
    findAltLoop e task db l =
      (l.find? (altQualifies e task db)).map (mkAltCandidate task db) := by
  induction l with
  | nil => rfl
  | cons u rest ih =>
    by_cases h1 : (u.id == e) = true
    · have h1' : u.id = e := by simpa using h1
      have hqf : ¬altQualifies e task db u = true := by
        simp [altQualifies, h1']
      rw [List.find?_cons_of_neg _ hqf]
      simp only [findAltLoop]
      rw [if_pos h1]
      exact ih
    · simp only [findAltLoop]
      rw [if_neg h1]
      by_cases h2 : 80 ≤ calculate_skill_match task.required_skills (skillScore u) ∧
          30 ≤ 100 - calculate_workload u.id db ∧
          has_blocking_incident u.id db = false
      · have hqt : altQualifies e task db u = true :=
          (altQualifies_iff e task db u).mpr ⟨by simpa using h1, h2⟩
        rw [if_pos h2, List.find?_cons_of_pos _ hqt]
        simp [mkAltCandidate]
      · have hqf : ¬altQualifies e task db u = true := by
          intro hT
          exact h2 ((altQualifies_iff e task db u).mp hT).2
        rw [if_neg h2, List.find?_cons_of_neg _ hqf]
        exact ih

/-- C5: the alternate search never returns the excluded employee; a returned
candidate has skill match at least 80, availability equal to 100 minus the
workload and at least 30, and no blocking incident; the result is the first
qualifying member of the active pool in iteration order, and nothing is
returned exactly when nobody qualifies. -/
theorem C5_alternate_first_qualifying (e : String) (task : Task) (db : DB) :
    (∀ c, find_valid_alternate e task db = some c →
      c.id ≠ e ∧ 80 ≤ c.skill_match ∧
      c.availability = 100 - calculate_workload c.id db ∧
      30 ≤ c.availability ∧ has_blocking_incident c.id db = false) ∧
    (find_valid_alternate e task db =
      ((db.users.filter (fun u => u.status == "active")).find?
        (altQualifies e task db)).map (mkAltCandidate task db)) ∧
    (find_valid_alternate e task db = none ↔
      ∀ u ∈ db.users.filter (fun u => u.status == "active"),
        altQualifies e task db u = false) := by
  have hchar := findAltLoop_eq_find e task db
    (db.users.filter (fun u => u.status == "active"))
  refine ⟨?_, hchar, ?_⟩
  · intro c hc
    rw [show find_valid_alternate e task db = findAltLoop e task db
        (db.users.filter (fun u => u.status == "active")) from rfl, hchar] at hc
    rcases Option.map_eq_some'.mp hc with ⟨u, hu, hmk⟩
    have hq := (altQualifies_iff e task db u).mp (List.find?_some hu)
    subst hmk
    exact ⟨hq.1, hq.2.1, rfl, hq.2.2.1, hq.2.2.2⟩
  · rw [show find_valid_alternate e task db = findAltLoop e task db
        (db.users.filter (fun u => u.status == "active")) from rfl, hchar]
    simp [List.find?_eq_none]

/-- C6 counterexample: employees E1 and E2 share project P1, E2 is active,
qualified and available, and the alternate search for E1's critical task
returns E2 anyway. -/
theorem C6_counterexample :
    inSameProject db6 "E1" "E2" = true ∧
    (find_valid_alternate "E1" task6 db6).map AltCandidate.id = some "E2" := by
  decide

/-- C6 amended: the alternate search never reads project membership — its
result is unchanged under any replacement of the project-members table — and
the only employee it skips unconditionally is the excluded one. -/
theorem C6_no_project_skip (e : String) (task : Task) (db : DB)
    (pm : List (String × String)) :
    find_valid_alternate e task { db with project_members := pm } =
      find_valid_alternate e task db ∧
    (∀ c, find_valid_alternate e task db = some c → c.id ≠ e) := by
  constructor
  · exact findAltLoop_project_members e task db pm _
  · intro c hc
    rw [show find_valid_alternate e task db = findAltLoop e task db
        (db.users.filter (fun u => u.status == "active")) from rfl,
      findAltLoop_eq_find] at hc
    rcases Option.map_eq_some'.mp hc with ⟨u, hu, hmk⟩
    have hq := (altQualifies_iff e task db u).mp (List.find?_some hu)
    subst hmk
    exact hq.1

/-- A member of an updated leaves table either came from a matching row and
is its updated image, or is an untouched non-matching row. -/
theorem updateLeaves_mem (f : Leave → Leave) (lid : String) (db : List Leave)
    (l : Leave) (hl : l ∈ updateLeaves f lid db) :
    (∃ x ∈ db, (x.id == lid) = true ∧ l = f x) ∨
      (l ∈ db ∧ (l.id == lid) = false) := by
  unfold updateLeaves at hl
  rcases List.mem_map.mp hl with ⟨x, hx, hfx⟩
  by_cases h : (x.id == lid) = true
  · left
    refine ⟨x, hx, h, ?_⟩
    rw [← hfx, if_pos h]
  · right
    rw [← hfx, if_neg h]
    exact ⟨hx, by simpa using h⟩

/-- C1 counterexample: an HR call on a request already in the terminal state
"approved" succeeds and rewrites its status instead of failing with
InvalidState, and an HR call on an unknown id succeeds with an empty result
instead of failing with NotFound. -/
theorem C1_counterexample :
    leaveApproved.status = "approved" ∧
    (hr_approve_leave "L1" hrActor [leaveApproved]).toOption.map
      (fun p => p.1.map Leave.status) = some ["forwarded_to_team_lead"] ∧
    hr_approve_leave "L404" hrActor [] = .ok ([], none) :=
  ⟨rfl, rfl, rfl⟩

/-- C1 amended: the three decision endpoints check only the actor's role
(and the action string); none reads the request's current status, so no
InvalidState and no NotFound is ever raised, success is a function of the
actor alone, and an authorized HR call writes "forwarded_to_team_lead" over
whatever status the matching rows had. -/
theorem C1_role_only_guards (lid act : String) (n : Option String) (a : Actor)
    (db : List Leave) :
    (∀ er, hr_approve_leave lid a db = .error er → er = .Forbidden) ∧
    (∀ er, tl_make_decision lid act n a db = .error er →
      er = .Forbidden ∨ er = .InvalidArgument) ∧
    (∀ er, pm_make_decision lid act n a db = .error er →
      er = .Forbidden ∨ er = .InvalidArgument) ∧
    ((hr_approve_leave lid a db).isOk = (is_admin a || a.role == "hr")) ∧
    (∀ db2 r, hr_approve_leave lid a db = .ok (db2, r) →
      ∀ l ∈ db2, l.id = lid → l.status = "forwarded_to_team_lead") := by
  refine ⟨?_, ?_, ?_, ?_, ?_⟩
  · intro er h
    unfold hr_approve_leave at h
    split at h
    · simpa using h.symm
    · simp at h
  · intro er h
    unfold tl_make_decision at h
    split at h
    · left; simpa using h.symm
    · split at h
      · simp at h
      · split at h
        · simp at h
        · right; simpa using h.symm
  · intro er h
    unfold pm_make_decision at h
    split at h
    · left; simpa using h.symm
    · split at h
      · simp at h
      · split at h
        · simp at h
        · right; simpa using h.symm
  · cases ha : is_admin a <;> cases hr : a.role == "hr" <;>
      simp [hr_approve_leave, ha, hr, Except.isOk, Except.toBool, bne]
  · intro db2 r h l hl hid
    unfold hr_approve_leave at h
    split at h
    · simp at h
    · rw [Except.ok.injEq, Prod.mk.injEq] at h
      obtain ⟨h1, h2⟩ := h
      subst h1
      rcases updateLeaves_mem _ _ _ _ hl with ⟨x, hx, hxid, rfl⟩ | ⟨hmem, hfalse⟩
      · rfl
      · rw [hid] at hfalse
        simp at hfalse

/-- C2 counterexample: a request in the initial state "pending_hr_review" is
moved directly to the terminal state "approved" both by an admin through the
approve endpoint and by a technical lead through tl-decision. -/
theorem C2_counterexample :
    blankLeave.status = "pending_hr_review" ∧
    (approve_leave "L1" none adminActor [blankLeave]).toOption.map
      (fun p => p.2.status) = some "approved" ∧
    (tl_make_decision "L1" "approve" none tlActor [blankLeave]).toOption.map
      (fun p => p.1.map Leave.status) = some ["approved"] :=
  ⟨rfl, rfl, rfl⟩

/-- C2 amended: the decision endpoints never consult the transition graph:
success depends only on the actor's role, and a successful approval writes
"approved" over every matching row whatever its previous status — including
a jump straight from "pending_hr_review" and moves out of terminal states. -/
theorem C2_no_transition_graph (lid : String) (n : Option String) (a : Actor)
    (db : List Leave) :
    ((tl_make_decision lid "approve" n a db).isOk =
      (is_admin a || a.role == "technical_lead")) ∧
    ((pm_make_decision lid "approve" n a db).isOk =
      (is_admin a || a.role == "project_manager")) ∧
    (∀ db2 r, tl_make_decision lid "approve" n a db = .ok (db2, r) →
      ∀ l ∈ db2, l.id = lid → l.status = "approved") ∧
    (∀ db2 r, pm_make_decision lid "reject" n a db = .ok (db2, r) →
      ∀ l ∈ db2, l.id = lid → l.status = "rejected") ∧
    (∀ db2 l, approve_leave lid n a db = .ok (db2, l) →
      l.status = "approved" ∧ (l.id == lid) = true) := by
  refine ⟨?_, ?_, ?_, ?_, ?_⟩
  · cases ha : is_admin a <;> cases hr : a.role == "technical_lead" <;>
      simp [tl_make_decision, ha, hr, Except.isOk, Except.toBool, bne]
  · cases ha : is_admin a <;> cases hr : a.role == "project_manager" <;>
      simp [pm_make_decision, ha, hr, Except.isOk, Except.toBool, bne]
  · intro db2 r h l hl hid
    unfold tl_make_decision at h
    split at h
    · simp at h
    · simp only [beq_self_eq_true, if_true, Except.ok.injEq, Prod.mk.injEq] at h
      obtain ⟨h1, h2⟩ := h
      subst h1
      rcases updateLeaves_mem _ _ _ _ hl with ⟨x, hx, hxid, rfl⟩ | ⟨hmem, hfalse⟩
      · rfl
      · rw [hid] at hfalse
        simp at hfalse
  · intro db2 r h l hl hid
    unfold pm_make_decision at h
    split at h
    · simp at h
    · rw [if_neg (by decide), if_pos (by decide)] at h
      rw [Except.ok.injEq, Prod.mk.injEq] at h
      obtain ⟨h1, h2⟩ := h
      subst h1
      rcases updateLeaves_mem _ _ _ _ hl with ⟨x, hx, hxid, rfl⟩ | ⟨hmem, hfalse⟩
      · rfl
      · rw [hid] at hfalse
        simp at hfalse
  · intro db2 l h
    unfold approve_leave at h
    split at h
    · simp at h
    · split at h
      · simp at h
      · rename_i l' hl'
        rw [Except.ok.injEq, Prod.mk.injEq] at h
        obtain ⟨h1, h2⟩ := h
        subst h2
        have hmem : l' ∈ matchingRows (updateLeaves
            (fun x => { x with
              status := "approved", approved_at_set := true,
              decided_by_id := some a.id, decision_notes := n }) lid db) lid := by
          cases hlist : matchingRows (updateLeaves
              (fun x => { x with
                status := "approved", approved_at_set := true,
                decided_by_id := some a.id, decision_notes := n }) lid db) lid with
          | nil => rw [hlist] at hl'; simp at hl'
          | cons y ys =>
            rw [hlist] at hl'
            simp only [List.head?_cons, Option.some.injEq] at hl'
            subst hl'
            exact List.mem_cons_self _ _
        rw [matchingRows, List.mem_filter] at hmem
        obtain ⟨hmem2, hidt⟩ := hmem
        rcases updateLeaves_mem _ _ _ _ hmem2 with ⟨x, hx, hxid, rfl⟩ | ⟨hmem3, hfalse⟩
        · exact ⟨rfl, hidt⟩
        · rw [hidt] at hfalse
          simp at hfalse

/-- C8 counterexample: an admin cancel on a request in "pending_l7_decision"
succeeds and writes "cancelled" instead of failing with InvalidState. -/
theorem C8_counterexample :
    leaveL7.status = "pending_l7_decision" ∧
    delete_leave "L1" adminActor [leaveL7] =
      .ok ([{ leaveL7 with status := "cancelled" }], none) :=
  ⟨rfl, rfl⟩

/-- C8 amended: cancel raises NotFound exactly on an unknown id; for a
non-admin actor it raises Forbidden on a foreign request and InvalidState
outside the two cancellable statuses, each before any write; an admin
bypasses both the ownership and the status check and can cancel from any
status. -/
theorem C8_admin_bypasses_cancel_guards (lid : String) (a : Actor)
    (db : List Leave) :
    (delete_leave lid a db = .error .NotFound ↔
      db.find? (fun l => l.id == lid) = none) ∧
    (∀ l, db.find? (fun l => l.id == lid) = some l →
      (is_admin a = false → l.employee_id ≠ a.id →
        delete_leave lid a db = .error .Forbidden) ∧
      (is_admin a = false → l.employee_id = a.id →
        l.status ≠ "pending_hr_review" → l.status ≠ "forwarded_to_team_lead" →
        delete_leave lid a db = .error .InvalidState) ∧
      (is_admin a = true →
        delete_leave lid a db =
          .ok (updateLeaves (fun x => { x with status := "cancelled" }) lid db, none))) := by
  constructor
  · unfold delete_leave
    cases hfind : db.find? (fun l => l.id == lid) with
    | none => simp
    | some l =>
      simp only []
      constructor
      · intro h
        split at h
        · simp at h
        · split at h <;> simp at h
      · intro h
        simp at h
  · intro l hfind
    refine ⟨?_, ?_, ?_⟩
    · intro hadm hown
      unfold delete_leave
      rw [hfind]
      simp [hadm, hown]
    · intro hadm hown hs1 hs2
      unfold delete_leave
      rw [hfind]
      simp [hadm, hown, hs1, hs2]
    · intro hadm
      unfold delete_leave
      rw [hfind]
      simp [hadm]

/-- C3: a successful conflict analysis obeys the claim's decision chain: the
REJECTED_BY_HR guard on the hr flag, PENDING_L6 on an incident hard block or
an uncovered resource hold, PENDING_L6 on a resource hold or pending tasks,
APPROVED_BY_L7 otherwise; the flags are the three queries' results and the
alternate search runs exactly on a resource hold, with the first critical
task as reference. -/
theorem C3_conflict_decision (lid : String) (db : DB) (r : AnalyzeResult)
    (h : analyze_leave_conflict lid db = .ok r) :
    conflictClaimProp db r := by
  unfold analyze_leave_conflict at h
  split at h
  · simp at h
  rename_i leave hfind
  split at h
  · simp at h
  split at h
  rotate_left
  · simp at h
  rename_i sd ed hdates
  split at h
  · simp at h
  rename_i emp hfind2
  simp only [Bool.not_true, Bool.false_eq_true, if_false] at h
  rw [Except.ok.injEq] at h
  subst h
  unfold conflictClaimProp
  refine ⟨?_, fun _ => ⟨?_, ?_, rfl, rfl, rfl, ?_⟩⟩
  · intro habs
    simp at habs
  · simp only [apply_ite Prod.fst]
  · simp only [apply_ite Prod.snd, apply_ite Prod.fst,
      apply_ite (fun s : String => s == "APPROVED_BY_L7")]
    split
    · rfl
    · split <;> rfl
  · cases hct : criticalTasksOf leave.employee_id db with
    | nil => simp [hct]
    | cons t ts => simp [hct]

/-- C3 witness: the claim's property evaluated on a one-leave database with
no tasks and no incidents, where the analysis returns APPROVED_BY_L7. -/
theorem C3_witness : conflictClaimProp db3 res3 :=
  C3_conflict_decision "L1" db3 res3 (by rfl)

end LeaveCore
